import Mathlib

/-!
Verification of the incident timeline simulation engine of `src/data/generate.py`.

The Python module synthesizes observability data (logs, metrics, deployments,
alerts) for a scripted cascading incident.  This file is a shallow embedding of
the parts of that module the verified properties are about:

* the phase dispatch over the simulated 120-minute window
  (`generate_logs`, `get_incident_multipliers`),
* the multiplier function `get_incident_multipliers`,
* the metric synthesizer `generate_metrics`,
* the log synthesizer loop body of `generate_logs`,
* the event synthesizers `generate_deployments` and `generate_alerts`.

Modelling conventions:

* Python floats are modelled as `ℚ`.  Every float comparison performed by the
  code (`progress > 0.3`, `progress > 0.5`, the phase guards) is either exact
  in binary floating point or has slack far larger than one ulp at every
  reachable input, so the rational model and the float code take the same
  branches and satisfy the same proved inequalities.
* Randomness is modelled by universally quantifying over the drawn values,
  constrained exactly as the documented ranges of the `random` calls constrain
  them (`random.uniform(-p, p)` yields a value `j` with `|j| ≤ p`,
  `random.choice(l)` yields an element of `l`, modelled by an arbitrary index
  reduced mod the list length).
* `@timestamp` is modelled by the minute offset passed to the helper `ts`,
  which is strictly monotone in the offset for a fixed base time.
* Python `round(x, n)` (round-half-to-even over binary floats) is modelled by
  round-half-up over `ℚ`; the two differ only at exact decimal ties, and every
  proved inequality has slack larger than one rounding step, so no statement
  below depends on the tie-breaking direction.
-/

/-! ### Character-list helpers (Python `in`, `str.replace`, `str.lower`) -/

/-- `isPre p s` holds when the char list `p` is an initial segment of `s`. -/
def isPre : List Char → List Char → Bool
  | [], _ => true
  | _ :: _, [] => false
  | p :: ps, c :: cs => p == c && isPre ps cs

/-- Python's substring test `pat in s`, on char lists. -/
def hasSub (pat : List Char) : List Char → Bool
  | [] => isPre pat []
  | c :: rest => isPre pat (c :: rest) || hasSub pat rest

/-- Fuel-driven replacement of every non-overlapping occurrence of `pat` by
`rep`, scanning left to right; with fuel at least the length of the scanned
list this is Python's `str.replace`. -/
def replFuel (pat rep : List Char) : Nat → List Char → List Char
  | _, [] => []
  | 0, s => s
  | fuel + 1, c :: rest =>
    if isPre pat (c :: rest) then
      rep ++ replFuel pat rep fuel (List.drop (pat.length - 1) rest)
    else
      c :: replFuel pat rep fuel rest

/-- Python `pat in s` on strings. -/
def strHasSub (pat s : String) : Bool := hasSub pat.data s.data

/-- Python `s.replace(pat, rep)`. -/
def strReplace (s pat rep : String) : String :=
  ⟨replFuel pat.data rep.data s.data.length s.data⟩

/-- Python `s.lower()` (all message text is ASCII). -/
def lowerStr (s : String) : String := ⟨s.data.map Char.toLower⟩

/-! ### Configuration constants of `generate.py` -/

def SERVICES : List String :=
  ["order-service", "payment-service", "notification-service", "user-service",
   "api-gateway"]

def HOSTS (service : String) : List String :=
  if service == "order-service" then ["order-svc-01", "order-svc-02", "order-svc-03"]
  else if service == "payment-service" then ["payment-svc-01", "payment-svc-02"]
  else if service == "notification-service" then ["notif-svc-01", "notif-svc-02"]
  else if service == "user-service" then ["user-svc-01", "user-svc-02"]
  else if service == "api-gateway" then ["api-gw-01", "api-gw-02"]
  else []

def REQUEST_PATHS (service : String) : List String :=
  if service == "order-service" then
    ["/api/orders", "/api/orders/{id}", "/api/orders/{id}/status", "/api/orders/bulk", "/healthz"]
  else if service == "payment-service" then
    ["/api/payments", "/api/payments/{id}", "/api/payments/refund", "/api/payments/verify", "/healthz"]
  else if service == "notification-service" then
    ["/api/notify/email", "/api/notify/sms", "/api/notify/push", "/api/notify/batch", "/healthz"]
  else if service == "user-service" then
    ["/api/users", "/api/users/{id}", "/api/users/auth", "/api/users/profile", "/healthz"]
  else if service == "api-gateway" then
    ["/api/v1/orders", "/api/v1/payments", "/api/v1/users", "/api/v1/notifications", "/healthz"]
  else []

def TOTAL_MINUTES : ℤ := 120
def INCIDENT_START_MIN : ℤ := 60
def INCIDENT_PEAK_MIN : ℤ := 66
def ALERT_FIRE_MIN : ℤ := 70
def ROLLBACK_MIN : ℤ := 80
def RECOVERY_MIN : ℤ := 85
def RESOLVED_MIN : ℤ := 90

/-! ### Phase dispatch (claim C1)

`generate.py` has no named phase type; both `generate_logs` (lines 167-225)
and `get_incident_multipliers` (lines 285-298) dispatch on the same chain of
half-open minute intervals.  `Phase` names the six regions of the spec; the
two functions below transcribe the two dispatch chains, mapping each branch to
the region it serves (the shared "normal operation" branch splits into
`baseline`/`resolved` by which disjunct of its guard holds). -/

inductive Phase where
  | baseline | rampup | peak | rollback | recovery | resolved
  deriving DecidableEq

/-- Branch selection of `get_incident_multipliers` (generate.py lines 285-298). -/
def multPhase (minute : ℤ) : Phase :=
  if minute < INCIDENT_START_MIN ∨ RESOLVED_MIN ≤ minute then
    (if minute < INCIDENT_START_MIN then .baseline else .resolved)
  else if INCIDENT_START_MIN ≤ minute ∧ minute < INCIDENT_PEAK_MIN then .rampup
  else if INCIDENT_PEAK_MIN ≤ minute ∧ minute < ROLLBACK_MIN then .peak
  else if ROLLBACK_MIN ≤ minute ∧ minute < RECOVERY_MIN then .rollback
  else .recovery

/-- Branch selection of the per-minute dispatch in `generate_logs`
(generate.py lines 167-225), which repeats the same interval chain. -/
def logPhase (t : ℤ) : Phase :=
  if t < INCIDENT_START_MIN ∨ RESOLVED_MIN ≤ t then
    (if t < INCIDENT_START_MIN then .baseline else .resolved)
  else if INCIDENT_START_MIN ≤ t ∧ t < INCIDENT_PEAK_MIN then .rampup
  else if INCIDENT_PEAK_MIN ≤ t ∧ t < ROLLBACK_MIN then .peak
  else if ROLLBACK_MIN ≤ t ∧ t < RECOVERY_MIN then .rollback
  else .recovery

/-- The spec-side phase intervals, written from the claim's words: ramp-up
`[60,66)`, peak `[66,80)`, rollback `[80,85)`, recovery `[85,90)`, and the
outside-window region split into baseline `t < 60` and resolved `t ≥ 90`. -/
def phaseIntervalSpec : Phase → ℤ → Prop
  | .baseline, t => t < 60
  | .rampup, t => 60 ≤ t ∧ t < 66
  | .peak, t => 66 ≤ t ∧ t < 80
  | .rollback, t => 80 ≤ t ∧ t < 85
  | .recovery, t => 85 ≤ t ∧ t < 90
  | .resolved, t => 90 ≤ t

/-! ### Multiplier function (`get_incident_multipliers`, lines 283-339) -/

/-- The six-dimensional multiplier vector. -/
structure Mults where
  cpu : ℚ
  mem : ℚ
  latency : ℚ
  error_rate : ℚ
  rps : ℚ
  conns : ℚ
  deriving DecidableEq

/-- The identity multiplier vector (all dimensions `1.0`). -/
def idMult : Mults := ⟨1, 1, 1, 1, 1, 1⟩

/-- Phase progress as computed inside `get_incident_multipliers`
(lines 291-298); only evaluated for minutes inside the incident window. -/
def progressOf (minute : ℤ) : ℚ :=
  if INCIDENT_START_MIN ≤ minute ∧ minute < INCIDENT_PEAK_MIN then
    ((minute : ℚ) - 60) / 6
  else if INCIDENT_PEAK_MIN ≤ minute ∧ minute < ROLLBACK_MIN then 1
  else if ROLLBACK_MIN ≤ minute ∧ minute < RECOVERY_MIN then
    1 - (1/2) * (((minute : ℚ) - 80) / 5)
  else
    (1/2) * (1 - ((minute : ℚ) - 85) / 5)

/-- `get_incident_multipliers(service, minute)` (generate.py lines 283-339). -/
def get_incident_multipliers (service : String) (minute : ℤ) : Mults :=
  if minute < INCIDENT_START_MIN ∨ RESOLVED_MIN ≤ minute then idMult
  else if service == "user-service" then idMult
  else
    let progress := progressOf minute
    if service == "order-service" then
      { cpu := 1 + progress * (3/2)
        mem := 1 + progress * (2/5)
        latency := 1 + progress * 20
        error_rate := 1 + progress * 220
        rps := 1 - progress * (3/10)
        conns := 1 + progress * (3/2) }
    else if service == "payment-service" then
      let delayed := if progress > 3/10 then max 0 (progress - 3/10) / (7/10) else 0
      { cpu := 1 + delayed * (4/5)
        mem := 1 + delayed * (1/5)
        latency := 1 + delayed * 12
        error_rate := 1 + delayed * 150
        rps := 1 - delayed * (1/5)
        conns := 1 + delayed * (4/5) }
    else if service == "notification-service" then
      let delayed := if progress > 1/2 then max 0 (progress - 1/2) / (1/2) else 0
      { cpu := 1 + delayed * (3/5)
        mem := 1 + delayed * (3/10)
        latency := 1 + delayed * 8
        error_rate := 1 + delayed * 100
        rps := 1 - delayed * (3/20)
        conns := 1 + delayed * (3/5) }
    else if service == "api-gateway" then
      { cpu := 1 + progress * (1/2)
        mem := 1 + progress * (1/10)
        latency := 1 + progress * 5
        error_rate := 1 + progress * 80
        rps := 1 + progress * (1/5)
        conns := 1 + progress * (2/5) }
    else idMult

/-! ### Metric synthesizer (`generate_metrics`, lines 342-371) -/

/-- Per-service baseline profile, `BASELINE_METRICS` (generate.py lines 274-280). -/
def BASELINE_METRICS (service : String) : Mults :=
  if service == "order-service" then ⟨35, 55, 120, 1/500, 450, 180⟩
  else if service == "payment-service" then ⟨28, 48, 95, 1/1000, 320, 140⟩
  else if service == "notification-service" then ⟨20, 40, 60, 1/1000, 280, 100⟩
  else if service == "user-service" then ⟨25, 45, 80, 1/1000, 380, 150⟩
  else if service == "api-gateway" then ⟨40, 50, 30, 1/1000, 1200, 500⟩
  else ⟨0, 0, 0, 0, 0, 0⟩

/-- Python `int(q)`: truncation toward zero. -/
def pytrunc (q : ℚ) : ℤ := if 0 ≤ q then ⌊q⌋ else ⌈q⌉

/-- Python `round(x, 1)` modelled over `ℚ` (see the file comment on ties). -/
def round1 (q : ℚ) : ℚ := ((⌊q * 10 + 1/2⌋ : ℤ) : ℚ) / 10

/-- Python `round(x, 4)` modelled over `ℚ` (see the file comment on ties). -/
def round4 (q : ℚ) : ℚ := ((⌊q * 10000 + 1/2⌋ : ℤ) : ℚ) / 10000

/-- `jitter(value, pct)` (generate.py line 77) applies the multiplicative
factor `1 + j` where `j` is the draw `random.uniform(-pct, pct)`; the draw is
passed in explicitly and constrained by `JitOK` at the theorems. -/
def jitter (value : ℚ) (j : ℚ) : ℚ := value * (1 + j)

/-- The six jitter draws consumed by one metric document. -/
structure MetricJit where
  cpu : ℚ
  mem : ℚ
  lat : ℚ
  err : ℚ
  rps : ℚ
  conns : ℚ

/-- Range constraints of the six `random.uniform(-pct, pct)` draws, with the
per-field percentages of generate.py lines 363-368. -/
def JitOK (j : MetricJit) : Prop :=
  |j.cpu| ≤ 1/20 ∧ |j.mem| ≤ 3/100 ∧ |j.lat| ≤ 1/10 ∧
    |j.err| ≤ 1/20 ∧ |j.rps| ≤ 2/25 ∧ |j.conns| ≤ 1/10

/-- Pre-jitter capped error rate, generate.py line 352. -/
def errRateCapped (service : String) (minute : ℤ) : ℚ :=
  min ((BASELINE_METRICS service).error_rate *
    (get_incident_multipliers service minute).error_rate) (95/100)

/-- Pre-jitter capped cpu%, generate.py line 353. -/
def cpuCapped (service : String) (minute : ℤ) : ℚ :=
  min ((BASELINE_METRICS service).cpu *
    (get_incident_multipliers service minute).cpu) 98

/-- Pre-jitter capped mem%, generate.py line 354. -/
def memCapped (service : String) (minute : ℤ) : ℚ :=
  min ((BASELINE_METRICS service).mem *
    (get_incident_multipliers service minute).mem) 95

/-- Pre-jitter latency, generate.py line 355: the raw product, no cap. -/
def latencyVal (service : String) (minute : ℤ) : ℚ :=
  (BASELINE_METRICS service).latency *
    (get_incident_multipliers service minute).latency

/-- Pre-jitter per-host request rate with its floor, generate.py line 356. -/
def rpsFloored (service : String) (minute : ℤ) : ℚ :=
  max ((BASELINE_METRICS service).rps *
    (get_incident_multipliers service minute).rps / ((HOSTS service).length : ℚ)) 10

/-- Pre-jitter per-host connection count, generate.py line 357. -/
def connsVal (service : String) (minute : ℤ) : ℤ :=
  pytrunc ((BASELINE_METRICS service).conns *
    (get_incident_multipliers service minute).conns / ((HOSTS service).length : ℚ))

/-- One emitted metric document; `offset` stands for `@timestamp`
(`ts(base_time, minute)`, strictly monotone in the offset). -/
structure MetricDoc where
  offset : ℚ
  service : String
  host : String
  cpu_percent : ℚ
  memory_percent : ℚ
  request_latency_ms : ℚ
  error_rate : ℚ
  requests_per_second : ℚ
  active_connections : ℤ

/-- Body of the innermost loop of `generate_metrics` (lines 351-369): the
document emitted for one (service, host, minute) given its jitter draws. -/
def metricDoc (service host : String) (minute : ℤ) (j : MetricJit) : MetricDoc :=
  { offset := (minute : ℚ)
    service := service
    host := host
    cpu_percent := round1 (jitter (cpuCapped service minute) j.cpu)
    memory_percent := round1 (jitter (memCapped service minute) j.mem)
    request_latency_ms := round1 (jitter (latencyVal service minute) j.lat)
    error_rate := round4 (jitter (errRateCapped service minute) j.err)
    requests_per_second := round1 (jitter (rpsFloored service minute) j.rps)
    active_connections := max 1 (pytrunc (jitter ((connsVal service minute : ℚ)) j.conns)) }

/-! ### Log synthesizer (`generate_logs`, lines 158-267) -/

/-- A (severity, message, error-code) message-table entry; the third component
is `none` exactly where the Python tables hold `None` (every normal-operation
entry), and the emitted document carries the `error_code` field exactly when
the entry's code is a (nonempty) string, matching `if error_code:`. -/
def NORMAL_LOG_MESSAGES (service : String) : List (String × String × Option String) :=
  if service == "order-service" then
    [("info", "Order created successfully", none),
     ("info", "Order status updated to processing", none),
     ("info", "Inventory check passed for order {trace_id}", none),
     ("info", "Payment authorization received", none),
     ("warn", "Slow database query detected: 450ms", none),
     ("info", "Order fulfillment initiated", none)]
  else if service == "payment-service" then
    [("info", "Payment processed successfully", none),
     ("info", "Payment verification complete", none),
     ("info", "Refund initiated for transaction {trace_id}", none),
     ("info", "Card tokenization successful", none),
     ("warn", "Payment retry attempt 1 of 3", none)]
  else if service == "notification-service" then
    [("info", "Email notification sent to customer", none),
     ("info", "SMS notification queued", none),
     ("info", "Push notification delivered", none),
     ("info", "Batch notification job completed: 150 sent", none)]
  else if service == "user-service" then
    [("info", "User authentication successful", none),
     ("info", "User profile updated", none),
     ("info", "Password reset token generated", none),
     ("info", "Session refreshed for user {trace_id}", none)]
  else if service == "api-gateway" then
    [("info", "Request routed to order-service", none),
     ("info", "Request routed to payment-service", none),
     ("info", "Rate limit check passed", none),
     ("info", "JWT token validated", none),
     ("warn", "Request approaching rate limit: 85% of quota", none)]
  else []

def INCIDENT_ERROR_MESSAGES_ORDER : List (String × String × Option String) :=
  [("error", "Connection pool exhausted: max 5 connections reached, 23 waiting", some "DB_POOL_EXHAUSTED"),
   ("error", "Failed to acquire database connection after 30000ms timeout", some "DB_CONN_TIMEOUT"),
   ("critical", "Database connection pool depleted - all requests failing", some "DB_POOL_CRITICAL"),
   ("error", "SQLException: Cannot acquire connection from pool - pool exhausted", some "DB_POOL_EXHAUSTED"),
   ("error", "Order creation failed: database connection timeout after 30s", some "DB_CONN_TIMEOUT"),
   ("error", "Transaction rollback: could not persist order to database", some "TX_ROLLBACK"),
   ("critical", "Circuit breaker OPEN for database connections - 95% failure rate", some "CIRCUIT_OPEN"),
   ("error", "Health check failed: database connection pool at 100% utilization", some "HEALTH_CHECK_FAIL"),
   ("error", "Connection pool stats: active=5, idle=0, waiting=31, maxWait=30000ms", some "DB_POOL_EXHAUSTED"),
   ("error", "Dropping request /api/orders - no database connections available", some "DB_CONN_TIMEOUT")]

def INCIDENT_ERROR_MESSAGES_PAYMENT : List (String × String × Option String) :=
  [("error", "Timeout waiting for order-service response after 30000ms", some "UPSTREAM_TIMEOUT"),
   ("error", "Failed to verify order status: upstream service unavailable", some "SERVICE_UNAVAILABLE"),
   ("error", "Payment processing failed: order validation timeout", some "UPSTREAM_TIMEOUT"),
   ("warn", "Retry attempt 3/3 for order-service call failed", some "RETRY_EXHAUSTED"),
   ("error", "Circuit breaker OPEN for order-service - consecutive failures: 15", some "CIRCUIT_OPEN")]

def INCIDENT_ERROR_MESSAGES_NOTIF : List (String × String × Option String) :=
  [("error", "Failed to fetch order details for notification: connection refused", some "UPSTREAM_ERROR"),
   ("error", "Notification enrichment failed: order-service returned 503", some "SERVICE_UNAVAILABLE"),
   ("warn", "Notification queue backing up: 450 pending, order-service unreachable", some "QUEUE_BACKLOG"),
   ("error", "Email notification skipped: missing order data from upstream", some "DATA_MISSING")]

def INCIDENT_ERROR_MESSAGES_GATEWAY : List (String × String × Option String) :=
  [("error", "502 Bad Gateway: order-service returned no response", some "BAD_GATEWAY"),
   ("warn", "Elevated error rate on /api/v1/orders: 43% of requests failing", some "HIGH_ERROR_RATE"),
   ("error", "Request timeout on /api/v1/orders after 60s", some "GATEWAY_TIMEOUT")]

/-- The per-service error table selected by the `if/elif` chain at
generate.py lines 237-246; the services with no table (the final `else`,
reached only by `user-service`) get `[]`. -/
def errorTableOf (service : String) : List (String × String × Option String) :=
  if service == "order-service" then INCIDENT_ERROR_MESSAGES_ORDER
  else if service == "payment-service" then INCIDENT_ERROR_MESSAGES_PAYMENT
  else if service == "notification-service" then INCIDENT_ERROR_MESSAGES_NOTIF
  else if service == "api-gateway" then INCIDENT_ERROR_MESSAGES_GATEWAY
  else []

/-- Per (service, minute) log volume range and error probability: the
`count`/`error_ratio` dispatch of `generate_logs` (lines 167-225).  Returns
(`randint` bounds, `error_ratio`). -/
def logParams (service : String) (t : ℤ) : (ℕ × ℕ) × ℚ :=
  if t < INCIDENT_START_MIN ∨ RESOLVED_MIN ≤ t then ((2, 5), 0)
  else if INCIDENT_START_MIN ≤ t ∧ t < INCIDENT_PEAK_MIN then
    let progress : ℚ := ((t : ℚ) - 60) / 6
    if service == "order-service" then ((5, 15), progress * (7/10))
    else if service == "payment-service" || service == "notification-service" then
      ((3, 8), progress * (3/10))
    else if service == "api-gateway" then ((3, 7), progress * (1/5))
    else ((2, 5), 0)
  else if INCIDENT_PEAK_MIN ≤ t ∧ t < ROLLBACK_MIN then
    if service == "order-service" then ((15, 30), 4/5)
    else if service == "payment-service" then ((8, 15), 1/2)
    else if service == "notification-service" then ((6, 12), 2/5)
    else if service == "api-gateway" then ((5, 10), 3/10)
    else ((2, 5), 0)
  else if ROLLBACK_MIN ≤ t ∧ t < RECOVERY_MIN then
    if service == "order-service" then ((8, 15), 3/10)
    else if service == "payment-service" || service == "notification-service" then
      ((4, 8), 3/20)
    else ((2, 5), 1/50)
  else
    let progress : ℚ := ((t : ℚ) - 85) / 5
    if service == "order-service" then ((3, 8), (3/10) * (1 - progress))
    else if service == "payment-service" || service == "notification-service" then
      ((2, 5), (3/20) * (1 - progress))
    else ((2, 5), 0)

/-- `random.choice(l)` modelled by an arbitrary index reduced mod the list
length (surjective onto `l` for nonempty `l`). -/
def choose (l : List String) (i : ℕ) : String := l.getD (i % l.length) ""

/-- `random.choice` on a message table. -/
def choose3 (l : List (String × String × Option String)) (i : ℕ) :
    String × String × Option String :=
  l.getD (i % l.length) ("", "", none)

/-- The random draws consumed by one iteration of the inner loop of
`generate_logs` (lines 227-265): intra-minute second offset, trace id, host
and path choices, the `random.random()` error draw, the message choice, and
the three possible `randint` response times (only the branch-selected one is
used). -/
structure LogDraw where
  secondOffset : ℚ
  traceId : String
  hostIdx : ℕ
  pathIdx : ℕ
  errDraw : ℚ
  msgIdx : ℕ
  rtTimeout : ℕ
  rtErr : ℕ
  rtNormal : ℕ

/-- One emitted log document; `offset` stands for `@timestamp`
(`ts(base_time, t + second_offset / 60)`). -/
structure LogDoc where
  offset : ℚ
  level : String
  service : String
  message : String
  traceId : String
  host : String
  requestPath : String
  responseTime : ℕ
  errorCode : Option String

/-- Body of one iteration of the inner loop of `generate_logs`
(lines 227-265).  `none` models the `continue` at line 246 (an error draw for
a service with no error table is skipped without emitting). -/
def mkLog (service : String) (t : ℤ) (d : LogDraw) : Option LogDoc :=
  let ratio := (logParams service t).2
  let host := choose (HOSTS service) d.hostIdx
  let path := choose (REQUEST_PATHS service) d.pathIdx
  if d.errDraw < ratio then
    if service == "order-service" || service == "payment-service" ||
        service == "notification-service" || service == "api-gateway" then
      let e := choose3 (errorTableOf service) d.msgIdx
      let rt := if strHasSub "timeout" (lowerStr e.2.1) then d.rtTimeout else d.rtErr
      some { offset := (t : ℚ) + d.secondOffset / 60
             level := e.1
             service := service
             message := e.2.1
             traceId := "trace-" ++ d.traceId
             host := host
             requestPath := path
             responseTime := rt
             errorCode := e.2.2 }
    else none
  else
    let e := choose3 (NORMAL_LOG_MESSAGES service) d.msgIdx
    some { offset := (t : ℚ) + d.secondOffset / 60
           level := e.1
           service := service
           message := strReplace e.2.1 "{trace_id}" d.traceId
           traceId := "trace-" ++ d.traceId
           host := host
           requestPath := path
           responseTime := d.rtNormal
           errorCode := e.2.2 }

/-- The log documents one (service, minute) iteration of `generate_logs`
emits, given the list of per-iteration draws (whose length is the `count`
drawn by `randint`); `continue`-skipped iterations emit nothing. -/
def logsFor (service : String) (t : ℤ) (ds : List LogDraw) : List LogDoc :=
  ds.filterMap (mkLog service t)

/-! ### Deployment synthesizer (`generate_deployments`, lines 378-425) -/

def DEPLOYERS : List String :=
  ["alice.chen", "bob.kumar", "carol.okonkwo", "david.miller", "eve.nakamura"]

/-- One deployment document; `offset` stands for `@timestamp`
(`ts(base_time, offset)`, strictly monotone in the offset). -/
structure DeployDoc where
  offset : ℚ
  service : String
  version : String
  deployer : String
  status : String
  commitHash : String
  changes : String
  rollbackOf : Option String

/-- `generate_deployments(base_time)` (lines 378-425).  The historical
deployments draw `random.choice(DEPLOYERS)` and a `uuid4` hash; those draws
are passed in as the functions `dep` and `hash` (the claims hold for every
draw, i.e. for every seed). -/
def generate_deployments (dep : ℕ → String) (hsh : ℕ → String) : List DeployDoc :=
  [{ offset := -2880, service := "user-service", version := "3.1.0",
     deployer := dep 0, status := "success", commitHash := hsh 0,
     changes := "Improved session handling and token refresh", rollbackOf := none },
   { offset := -2160, service := "api-gateway", version := "2.8.5",
     deployer := dep 1, status := "success", commitHash := hsh 1,
     changes := "Updated rate limiting configuration", rollbackOf := none },
   { offset := -1440, service := "notification-service", version := "1.5.2",
     deployer := dep 2, status := "success", commitHash := hsh 2,
     changes := "Added batch notification support", rollbackOf := none },
   { offset := -720, service := "payment-service", version := "4.2.1",
     deployer := dep 3, status := "success", commitHash := hsh 3,
     changes := "PCI compliance updates for card tokenization", rollbackOf := none },
   { offset := -360, service := "order-service", version := "2.3.9",
     deployer := dep 4, status := "success", commitHash := hsh 4,
     changes := "Performance optimization for bulk order queries", rollbackOf := none },
   { offset := 58, service := "order-service", version := "2.4.1",
     deployer := "bob.kumar", status := "success", commitHash := "a3f7c21",
     changes := "Updated database connection pool configuration and added new order validation logic. Changed max pool size from 50 to 5 for testing - FORGOT TO REVERT.",
     rollbackOf := none },
   { offset := (80 : ℚ), service := "order-service", version := "2.3.9",
     deployer := "alice.chen", status := "rollback", commitHash := "b8e4d12",
     changes := "Emergency rollback to v2.3.9 due to database connection pool exhaustion in v2.4.1",
     rollbackOf := some "2.4.1" }]

/-! ### Alert synthesizer (`generate_alerts`, lines 522-572) -/

/-- One alert document; `offset` stands for `@timestamp`. -/
structure AlertDoc where
  offset : ℚ
  alertId : String
  severity : String
  service : String
  condition : String
  message : String
  status : String
  thresholdValue : ℚ
  actualValue : ℚ

/-- The condition string of a historical alert,
`f"{message.split(' above ')[0]} above threshold"` (line 539). -/
def condOf (message : String) : String :=
  ((message.splitOn " above ").headD "") ++ " above threshold"

/-- `generate_alerts(base_time)` (lines 522-572).  The historical alert ids
draw a `uuid4`; the draw is passed in as `aid` (the claims hold for every
draw, i.e. for every seed). -/
def generate_alerts (aid : ℕ → String) : List AlertDoc :=
  [{ offset := -1440, alertId := aid 0, severity := "medium",
     service := "user-service", condition := condOf "Memory usage above 75% threshold",
     message := "Memory usage above 75% threshold", status := "resolved",
     thresholdValue := 3/4, actualValue := 39/50 },
   { offset := -720, alertId := aid 1, severity := "low",
     service := "api-gateway", condition := condOf "Request latency P99 above 500ms",
     message := "Request latency P99 above 500ms", status := "resolved",
     thresholdValue := 500, actualValue := 520 },
   { offset := -360, alertId := aid 2, severity := "low",
     service := "notification-service", condition := condOf "Queue depth above 200",
     message := "Queue depth above 200", status := "resolved",
     thresholdValue := 200, actualValue := 215 },
   { offset := (ALERT_FIRE_MIN : ℚ), alertId := "ALT-CRITICAL-001", severity := "critical",
     service := "order-service", condition := "error_rate > 0.30 for 5 minutes",
     message := "CRITICAL: order-service error rate has exceeded 30% for the last 5 minutes. Current error rate: 45%. Cascading failures detected in payment-service and notification-service.",
     status := "firing", thresholdValue := 3/10, actualValue := 9/20 },
   { offset := ((ALERT_FIRE_MIN : ℚ) + 2), alertId := "ALT-HIGH-002", severity := "high",
     service := "payment-service", condition := "error_rate > 0.15 for 3 minutes",
     message := "HIGH: payment-service error rate at 22%. Upstream dependency (order-service) is degraded.",
     status := "firing", thresholdValue := 3/20, actualValue := 11/50 }]

/-! ### Shared lemmas about the phase dispatch and progress -/

/-- The branch `get_incident_multipliers` selects satisfies the spec-side
interval of the phase it serves, for every minute. -/
theorem multPhase_spec (t : ℤ) : phaseIntervalSpec (multPhase t) t := by
  unfold multPhase INCIDENT_START_MIN INCIDENT_PEAK_MIN ROLLBACK_MIN RECOVERY_MIN RESOLVED_MIN
  split_ifs with h1 h2 h3 h4 h5 <;> simp only [phaseIntervalSpec] <;> omega

/-- The spec-side phase intervals are pairwise disjoint. -/
theorem phase_spec_unique (t : ℤ) (p q : Phase)
    (hp : phaseIntervalSpec p t) (hq : phaseIntervalSpec q t) : p = q := by
  cases p <;> cases q <;>
    first
      | rfl
      | (exfalso; simp only [phaseIntervalSpec] at hp hq; omega)

/-- C1: for every minute of the simulated window `[0, 120)`, exactly one of
the six phases classifies it — the intervals `[60,66)`, `[66,80)`, `[80,85)`,
`[85,90)` together with the outside-window baseline (`t < 60`) and resolved
(`t ≥ 90`) regions are pairwise disjoint and jointly cover the window — and
the phase dispatch chains of `get_incident_multipliers` and `generate_logs`
both select exactly that phase. -/
theorem phase_partition (t : ℤ) (_h0 : 0 ≤ t) (_h1 : t < TOTAL_MINUTES) :
    (∃! p : Phase, phaseIntervalSpec p t) ∧
      phaseIntervalSpec (multPhase t) t ∧ logPhase t = multPhase t :=
  ⟨⟨multPhase t, multPhase_spec t, fun q hq => phase_spec_unique t q (multPhase t) hq (multPhase_spec t)⟩,
   multPhase_spec t, rfl⟩

/-- C1 witness: the theorem instantiated at minute 70 (peak phase). -/
theorem phase_partition_witness :
    (∃! p : Phase, phaseIntervalSpec p 70) ∧
      phaseIntervalSpec (multPhase 70) 70 ∧ logPhase 70 = multPhase 70 :=
  phase_partition 70 (by decide) (by decide)

/-- C3: `user-service` never degrades — for every minute, inside or outside
the incident window, its multiplier vector is the identity on all six
dimensions. -/
theorem user_service_identity (minute : ℤ) :
    get_incident_multipliers "user-service" minute = idMult := by
  unfold get_incident_multipliers
  split_ifs <;> simp_all

/-- In the ramp-up interval the progress computed by
`get_incident_multipliers` is `(minute - 60) / 6`. -/
theorem progressOf_ramp (t : ℤ) (h1 : 60 ≤ t) (h2 : t < 66) :
    progressOf t = ((t : ℚ) - 60) / 6 := by
  unfold progressOf INCIDENT_START_MIN INCIDENT_PEAK_MIN
  rw [if_pos ⟨h1, h2⟩]

/-- C2: causal delay for `payment-service`.  At every ramp-up minute whose
computed progress is at most `0.3` the multiplier vector is the identity
(the delayed progress is zero); past that point the error-rate dimension
ramps as `1 + ((progress - 0.3) / 0.7) * 150`. -/
theorem payment_ramp_delay (t : ℤ) (h1 : 60 ≤ t) (h2 : t < 66) :
    (progressOf t ≤ 3/10 → get_incident_multipliers "payment-service" t = idMult) ∧
      (3/10 < progressOf t →
        (get_incident_multipliers "payment-service" t).error_rate
          = 1 + ((progressOf t - 3/10) / (7/10)) * 150) := by
  have hw : ¬(t < INCIDENT_START_MIN ∨ RESOLVED_MIN ≤ t) := by
    unfold INCIDENT_START_MIN RESOLVED_MIN; omega
  unfold get_incident_multipliers
  rw [if_neg hw]
  simp only [String.reduceBEq, Bool.false_eq_true, if_false, if_true]
  constructor
  · intro hle
    rw [if_neg (not_lt.mpr hle)]
    unfold idMult
    norm_num
  · intro hgt
    rw [if_pos hgt, max_eq_right (by linarith)]

/-- C2 witness: at minute 61 the ramp-up progress is `1/6 ≤ 0.3`, and the
payment-service multiplier vector is the identity. -/
theorem payment_ramp_delay_witness :
    get_incident_multipliers "payment-service" 61 = idMult :=
  (payment_ramp_delay 61 (by decide) (by decide)).1 (by
    rw [progressOf_ramp 61 (by decide) (by decide)]; norm_num)

/-- In the peak interval the progress computed by `get_incident_multipliers`
is pinned to 1. -/
theorem progressOf_peak (t : ℤ) (h1 : 66 ≤ t) (h2 : t < 80) :
    progressOf t = 1 := by
  unfold progressOf INCIDENT_START_MIN INCIDENT_PEAK_MIN ROLLBACK_MIN
  rw [if_neg (by omega), if_pos ⟨h1, h2⟩]

/-- C4: at every peak-phase minute the `order-service` error-rate multiplier
is `1 + 1.0 * 220 = 221`, and the pre-jitter effective error rate
`min(0.002 * 221, 0.95)` computed by `generate_metrics` is at least `0.4`. -/
theorem order_peak_error (t : ℤ) (h1 : 66 ≤ t) (h2 : t < 80) :
    (get_incident_multipliers "order-service" t).error_rate = 221 ∧
      2/5 ≤ errRateCapped "order-service" t := by
  have hw : ¬(t < INCIDENT_START_MIN ∨ RESOLVED_MIN ≤ t) := by
    unfold INCIDENT_START_MIN RESOLVED_MIN; omega
  have hm : (get_incident_multipliers "order-service" t).error_rate = 221 := by
    unfold get_incident_multipliers
    rw [if_neg hw, progressOf_peak t h1 h2]
    simp only [String.reduceBEq, Bool.false_eq_true, if_false, if_true]
    norm_num
  refine ⟨hm, ?_⟩
  unfold errRateCapped BASELINE_METRICS
  rw [hm]
  norm_num

/-- C4 witness: the theorem instantiated at minute 70. -/
theorem order_peak_error_witness :
    (get_incident_multipliers "order-service" 70).error_rate = 221 ∧
      2/5 ≤ errRateCapped "order-service" 70 :=
  order_peak_error 70 (by decide) (by decide)

/-! ### Bounds on progress, multipliers and rounding (claims C5, C6) -/

/-- Inside the incident window the computed progress lies in `[0, 1]`. -/
theorem progressOf_bounds (t : ℤ) (h1 : 60 ≤ t) (h2 : t < 90) :
    0 ≤ progressOf t ∧ progressOf t ≤ 1 := by
  have hq1 : (60 : ℚ) ≤ (t : ℚ) := by exact_mod_cast h1
  have hq2 : (t : ℚ) ≤ 89 := by exact_mod_cast (by omega : t ≤ 89)
  unfold progressOf INCIDENT_START_MIN INCIDENT_PEAK_MIN ROLLBACK_MIN RECOVERY_MIN
  split_ifs with ha hb hc
  · have h65 : (t : ℚ) ≤ 65 := by exact_mod_cast (by omega : t ≤ 65)
    constructor <;> linarith
  · norm_num
  · obtain ⟨hc1, hc2⟩ := hc
    have hq3 : (80 : ℚ) ≤ (t : ℚ) := by exact_mod_cast hc1
    have hq4 : (t : ℚ) ≤ 84 := by exact_mod_cast (by omega : t ≤ 84)
    constructor <;> linarith
  · have hq3 : (85 : ℚ) ≤ (t : ℚ) := by
      exact_mod_cast (by omega : (85 : ℤ) ≤ t)
    constructor <;> linarith

/-- Component bounds of the multiplier vector needed by the metric-floor and
cap properties: the error-rate multiplier never drops below 1, the rps
multiplier never drops below `0.7`, and the latency multiplier stays in
`[1, 21]` — for every service string and every minute. -/
theorem mult_bounds (s : String) (t : ℤ) :
    1 ≤ (get_incident_multipliers s t).error_rate ∧
      7/10 ≤ (get_incident_multipliers s t).rps ∧
      1 ≤ (get_incident_multipliers s t).latency ∧
      (get_incident_multipliers s t).latency ≤ 21 := by
  unfold get_incident_multipliers
  split_ifs with h1 h2 h3 h4 h5 h6
  · norm_num [idMult]
  · norm_num [idMult]
  case _ =>
    obtain ⟨hp0, hp1⟩ := progressOf_bounds t
      (by unfold INCIDENT_START_MIN RESOLVED_MIN at h1; omega)
      (by unfold INCIDENT_START_MIN RESOLVED_MIN at h1; omega)
    dsimp only
    refine ⟨by linarith, by linarith, by linarith, by linarith⟩
  case _ =>
    obtain ⟨hp0, hp1⟩ := progressOf_bounds t
      (by unfold INCIDENT_START_MIN RESOLVED_MIN at h1; omega)
      (by unfold INCIDENT_START_MIN RESOLVED_MIN at h1; omega)
    dsimp only
    split_ifs with hd
    · rw [max_eq_right (by linarith)]
      have hd0 : 0 ≤ (progressOf t - 3/10) / (7/10) := by
        apply div_nonneg (by linarith) (by norm_num)
      have hd1 : (progressOf t - 3/10) / (7/10) ≤ 1 := by
        rw [div_le_one (by norm_num)]; linarith
      refine ⟨by linarith, by linarith, by linarith, by linarith⟩
    · norm_num
  case _ =>
    obtain ⟨hp0, hp1⟩ := progressOf_bounds t
      (by unfold INCIDENT_START_MIN RESOLVED_MIN at h1; omega)
      (by unfold INCIDENT_START_MIN RESOLVED_MIN at h1; omega)
    dsimp only
    split_ifs with hd
    · rw [max_eq_right (by linarith)]
      have hd0 : 0 ≤ (progressOf t - 1/2) / (1/2) := by
        apply div_nonneg (by linarith) (by norm_num)
      have hd1 : (progressOf t - 1/2) / (1/2) ≤ 1 := by
        rw [div_le_one (by norm_num)]; linarith
      refine ⟨by linarith, by linarith, by linarith, by linarith⟩
    · norm_num
  case _ =>
    obtain ⟨hp0, hp1⟩ := progressOf_bounds t
      (by unfold INCIDENT_START_MIN RESOLVED_MIN at h1; omega)
      (by unfold INCIDENT_START_MIN RESOLVED_MIN at h1; omega)
    dsimp only
    refine ⟨by linarith, by linarith, by linarith, by linarith⟩
  · norm_num [idMult]

/-- The round-half-up model of Python `round(x, 1)` moves a value by at most
`0.05`. -/
theorem round1_bounds (q : ℚ) : q - 1/20 ≤ round1 q ∧ round1 q ≤ q + 1/20 := by
  unfold round1
  have hlo : q * 10 + 1/2 - 1 < (⌊q * 10 + 1/2⌋ : ℚ) := Int.sub_one_lt_floor _
  have hhi : (⌊q * 10 + 1/2⌋ : ℚ) ≤ q * 10 + 1/2 := Int.floor_le _
  constructor <;> [linarith; linarith]

/-- The round-half-up model of Python `round(x, 4)` moves a value by at most
`0.00005`. -/
theorem round4_bounds (q : ℚ) : q - 1/20000 ≤ round4 q ∧ round4 q ≤ q + 1/20000 := by
  unfold round4
  have hlo : q * 10000 + 1/2 - 1 < (⌊q * 10000 + 1/2⌋ : ℚ) := Int.sub_one_lt_floor _
  have hhi : (⌊q * 10000 + 1/2⌋ : ℚ) ≤ q * 10000 + 1/2 := Int.floor_le _
  constructor <;> [linarith; linarith]

/-- For every configured service the pre-floor per-host request rate
`base_rps * rps_multiplier / host_count` never drops below 98 (the floor of
10 at generate.py line 356 therefore never binds). -/
theorem rps_pre_lb (s : String) (hs : s ∈ SERVICES) (t : ℤ) :
    (98 : ℚ) ≤ (BASELINE_METRICS s).rps * (get_incident_multipliers s t).rps /
      ((HOSTS s).length : ℚ) := by
  obtain ⟨-, hr, -, -⟩ := mult_bounds s t
  fin_cases hs <;>
    simp only [BASELINE_METRICS, HOSTS, String.reduceBEq, Bool.false_eq_true,
      if_false, if_true, List.length_cons, List.length_nil] <;>
    norm_num <;> linarith

/-- C5: in every metric document emitted by `generate_metrics`, for every
configured service, host, minute and admissible jitter draws, the emitted
`active_connections` is an integer at least 1 and the emitted
`requests_per_second` is at least 10 — the floors hold on the final output
values, after the jitter applied to the floored rps. -/
theorem metric_floors (s host : String) (t : ℤ) (j : MetricJit)
    (hs : s ∈ SERVICES) (hj : JitOK j) :
    1 ≤ (metricDoc s host t j).active_connections ∧
      10 ≤ (metricDoc s host t j).requests_per_second := by
  constructor
  · simp only [metricDoc]
    exact le_max_left _ _
  · have hpre := rps_pre_lb s hs t
    have hfloor : (98 : ℚ) ≤ rpsFloored s t := le_trans hpre (le_max_left _ _)
    unfold JitOK at hj
    obtain ⟨-, -, -, -, hjr, -⟩ := hj
    have hj1 : 23/25 ≤ 1 + j.rps := by
      have := (abs_le.mp hjr).1; linarith
    have hjit : (98 : ℚ) * (23/25) ≤ rpsFloored s t * (1 + j.rps) :=
      mul_le_mul hfloor hj1 (by norm_num) (by linarith)
    have hr := (round1_bounds (jitter (rpsFloored s t) j.rps)).1
    simp only [metricDoc]
    unfold jitter at *
    linarith

/-- C5 witness: the theorem instantiated at `order-service`, minute 0, zero
jitter. -/
theorem metric_floors_witness :
    1 ≤ (metricDoc "order-service" "order-svc-01" 0 ⟨0, 0, 0, 0, 0, 0⟩).active_connections ∧
      10 ≤ (metricDoc "order-service" "order-svc-01" 0 ⟨0, 0, 0, 0, 0, 0⟩).requests_per_second :=
  metric_floors "order-service" "order-svc-01" 0 ⟨0, 0, 0, 0, 0, 0⟩
    (by decide) (by norm_num [JitOK])

/-- C6 counterexample to "latency is likewise capped after multiplication":
at peak minute 66 for `order-service` the latency computed by
`generate_metrics` equals the full uncapped product
`base_latency * latency_multiplier = 120 * 21 = 2520` — no `min` reduces it,
and it exceeds every cap value the claim lists (0.95, 95, 98). -/
theorem latency_uncapped_cex :
    latencyVal "order-service" 66 = 2520 ∧
      (BASELINE_METRICS "order-service").latency *
        (get_incident_multipliers "order-service" 66).latency = 2520 ∧
      (98 : ℚ) < 2520 := by
  have hm : (get_incident_multipliers "order-service" 66).latency = 21 := by
    unfold get_incident_multipliers
    rw [if_neg (by unfold INCIDENT_START_MIN RESOLVED_MIN; omega),
      progressOf_peak 66 (by omega) (by omega)]
    simp only [String.reduceBEq, Bool.false_eq_true, if_false, if_true]
    norm_num
  unfold latencyVal
  rw [hm]
  norm_num [BASELINE_METRICS]

/-- C6 (amended): for every configured service, minute and admissible jitter
draws, the post-multiplication error-rate, cpu and mem values are capped
(`≤ 0.95`, `≤ 98`, `≤ 95`); latency is NOT capped — it is the raw product
`base_latency * latency_multiplier`, bounded by 2520 only because progress
stays in `[0, 1]` — and every emitted `error_rate` lies strictly between
0 and 1. -/
theorem metric_caps_amended (s host : String) (t : ℤ) (j : MetricJit)
    (hs : s ∈ SERVICES) (hj : JitOK j) :
    errRateCapped s t ≤ 95/100 ∧ cpuCapped s t ≤ 98 ∧ memCapped s t ≤ 95 ∧
      latencyVal s t =
        (BASELINE_METRICS s).latency * (get_incident_multipliers s t).latency ∧
      latencyVal s t ≤ 2520 ∧
      0 < (metricDoc s host t j).error_rate ∧
      (metricDoc s host t j).error_rate < 1 := by
  obtain ⟨he1, -, hl1, hl2⟩ := mult_bounds s t
  have hbe : 1/1000 ≤ (BASELINE_METRICS s).error_rate := by
    fin_cases hs <;>
      simp only [BASELINE_METRICS, String.reduceBEq, Bool.false_eq_true,
        if_false, if_true] <;>
      norm_num
  have hlow : 1/1000 ≤ errRateCapped s t := by
    unfold errRateCapped
    refine le_min ?_ (by norm_num)
    calc (1/1000 : ℚ) = (1/1000) * 1 := by norm_num
      _ ≤ (BASELINE_METRICS s).error_rate * (get_incident_multipliers s t).error_rate :=
          mul_le_mul hbe he1 (by norm_num) (by linarith)
  have hcap : errRateCapped s t ≤ 95/100 := min_le_right _ _
  unfold JitOK at hj
  obtain ⟨-, -, -, hje, -, -⟩ := hj
  have hj1 : 19/20 ≤ 1 + j.err := by have := (abs_le.mp hje).1; linarith
  have hj2 : 1 + j.err ≤ 21/20 := by have := (abs_le.mp hje).2; linarith
  refine ⟨hcap, min_le_right _ _, min_le_right _ _, rfl, ?_, ?_, ?_⟩
  · have hbase : 0 ≤ (BASELINE_METRICS s).latency ∧ (BASELINE_METRICS s).latency ≤ 120 := by
      fin_cases hs <;>
      simp only [BASELINE_METRICS, String.reduceBEq, Bool.false_eq_true,
        if_false, if_true] <;>
      norm_num
    unfold latencyVal
    calc (BASELINE_METRICS s).latency * (get_incident_multipliers s t).latency
        ≤ 120 * 21 := mul_le_mul hbase.2 hl2 (by linarith) (by norm_num)
      _ = 2520 := by norm_num
  · have hjit : (1/1000 : ℚ) * (19/20) ≤ errRateCapped s t * (1 + j.err) :=
      mul_le_mul hlow hj1 (by norm_num) (by linarith)
    have hr := (round4_bounds (jitter (errRateCapped s t) j.err)).1
    simp only [metricDoc]
    unfold jitter at *
    linarith
  · have hjit : errRateCapped s t * (1 + j.err) ≤ (95/100 : ℚ) * (21/20) :=
      mul_le_mul hcap hj2 (by linarith) (by norm_num)
    have hr := (round4_bounds (jitter (errRateCapped s t) j.err)).2
    simp only [metricDoc]
    unfold jitter at *
    linarith

/-- C6 witness: the amended theorem instantiated at `order-service`,
minute 0, zero jitter. -/
theorem metric_caps_amended_witness :
    errRateCapped "order-service" 0 ≤ 95/100 ∧ cpuCapped "order-service" 0 ≤ 98 ∧
      memCapped "order-service" 0 ≤ 95 ∧
      latencyVal "order-service" 0 =
        (BASELINE_METRICS "order-service").latency *
          (get_incident_multipliers "order-service" 0).latency ∧
      latencyVal "order-service" 0 ≤ 2520 ∧
      0 < (metricDoc "order-service" "order-svc-01" 0 ⟨0, 0, 0, 0, 0, 0⟩).error_rate ∧
      (metricDoc "order-service" "order-svc-01" 0 ⟨0, 0, 0, 0, 0, 0⟩).error_rate < 1 :=
  metric_caps_amended "order-service" "order-svc-01" 0 ⟨0, 0, 0, 0, 0, 0⟩
    (by decide) (by norm_num [JitOK])

/-! ### Deployment and alert scenario properties (claims C8, C9) -/

/-- The triggering bad deployment: v2.4.1, successful, with the tell-tale
change note. -/
def isBadDeploy (d : DeployDoc) : Bool :=
  d.version == "2.4.1" && d.status == "success" && strHasSub "FORGOT TO REVERT" d.changes

/-- The remediating rollback of v2.4.1. -/
def isRollbackOfBad (d : DeployDoc) : Bool :=
  d.status == "rollback" && d.rollbackOf == some "2.4.1"

/-- C8: for every deployer/commit-hash draw (hence every seed) and fixed base
time, `generate_deployments` emits exactly one successful v2.4.1 document
whose changes contain "FORGOT TO REVERT", and exactly one rollback document
referencing v2.4.1; the bad deploy is the 6th document at minute offset 58
and the rollback the 7th at minute offset 80, so the rollback follows it both
in sequence order and in timestamp. -/
theorem deployment_scenario (dep hsh : ℕ → String) :
    ((generate_deployments dep hsh).filter isBadDeploy).length = 1 ∧
      ((generate_deployments dep hsh).filter isRollbackOfBad).length = 1 ∧
      ((generate_deployments dep hsh).get? 5).map
          (fun d => (d.version, d.status, isBadDeploy d, d.offset)) =
        some ("2.4.1", "success", true, (58 : ℚ)) ∧
      ((generate_deployments dep hsh).get? 6).map
          (fun d => (d.status, d.rollbackOf, d.offset)) =
        some ("rollback", some "2.4.1", (80 : ℚ)) ∧
      (58 : ℚ) < 80 :=
  ⟨rfl, rfl, rfl, rfl, by norm_num⟩

def isCriticalAlert (a : AlertDoc) : Bool := a.severity == "critical"

def isHighAlert (a : AlertDoc) : Bool := a.severity == "high"

/-- C9: for every alert-id draw (hence every seed) and fixed base time,
`generate_alerts` emits exactly one critical alert — for `order-service`,
actual value 0.45, threshold 0.30, status firing, at minute offset 70 — and
exactly one high alert — for `payment-service`, firing, at minute offset 72,
strictly after the critical one — while the three historical alerts are all
low/medium and resolved. -/
theorem alert_scenario (aid : ℕ → String) :
    ((generate_alerts aid).filter isCriticalAlert).map
        (fun a => (a.service, a.actualValue, a.thresholdValue, a.status)) =
      [("order-service", (9/20 : ℚ), (3/10 : ℚ), "firing")] ∧
      ((generate_alerts aid).filter isHighAlert).map
          (fun a => (a.service, a.status)) =
        [("payment-service", "firing")] ∧
      ((generate_alerts aid).filter isCriticalAlert).map AlertDoc.offset = [(70 : ℚ)] ∧
      ((generate_alerts aid).filter isHighAlert).map AlertDoc.offset = [(72 : ℚ)] ∧
      ((generate_alerts aid).take 3).all
        (fun a => (a.severity == "low" || a.severity == "medium") &&
          a.status == "resolved") = true ∧
      (70 : ℚ) < 72 := by
  refine ⟨rfl, rfl, ?_, ?_, rfl, by norm_num⟩
  · simp only [generate_alerts, List.filter, isCriticalAlert, String.reduceBEq,
      List.map, ALERT_FIRE_MIN]
    norm_num
  · simp only [generate_alerts, List.filter, isHighAlert, String.reduceBEq,
      List.map, ALERT_FIRE_MIN]
    norm_num

/-! ### Log vocabulary properties (claims C7, C10) -/

/-- `random.choice` on a nonempty message table returns one of its entries. -/
theorem choose3_mem (l : List (String × String × Option String)) (i : ℕ)
    (h : l ≠ []) : choose3 l i ∈ l := by
  unfold choose3
  have hlen : 0 < l.length := List.length_pos.mpr h
  have hi : i % l.length < l.length := Nat.mod_lt _ hlen
  rw [List.getD_eq_getElem l _ hi]
  exact List.getElem_mem hi

/-- Every entry of every service's error table carries an error code. -/
theorem errorTable_codes_isSome :
    ∀ s ∈ SERVICES, ∀ x ∈ errorTableOf s, x.2.2.isSome = true := by decide

/-- No error message text of one service's table occurs in another service's
table: the curated error vocabularies are pairwise disjoint on messages. -/
theorem error_vocab_disjoint :
    ∀ sa ∈ SERVICES, ∀ sb ∈ SERVICES, sa ≠ sb →
      ∀ x ∈ errorTableOf sa, x.2.1 ∉ (errorTableOf sb).map (fun e => e.2.1) := by
  decide

/-- C7: every log document emitted on the `is_error` branch of
`generate_logs` carries an error code, its (severity, message, code) triple
is an entry of its own service's curated error table, and its message text
never belongs to another service's table. -/
theorem error_vocab_own_service (s : String) (t : ℤ) (d : LogDraw) (log : LogDoc)
    (hs : s ∈ SERVICES) (herr : d.errDraw < (logParams s t).2)
    (hmk : mkLog s t d = some log) :
    log.errorCode.isSome = true ∧
      (log.level, log.message, log.errorCode) ∈ errorTableOf s ∧
      ∀ s', s' ∈ SERVICES → s' ≠ s →
        log.message ∉ (errorTableOf s').map (fun e => e.2.1) := by
  fin_cases hs <;>
    (simp only [mkLog, String.reduceBEq, Bool.true_or, Bool.or_true, Bool.false_or,
        Bool.or_false, Bool.or_self, if_true, if_false, Bool.false_eq_true] at hmk
     rw [if_pos herr] at hmk
     first
       | exact Option.noConfusion hmk
       | (rw [Option.some.injEq] at hmk
          subst hmk
          refine ⟨errorTable_codes_isSome _ (by decide) _ (choose3_mem _ _ (by decide)),
            choose3_mem _ _ (by decide), ?_⟩
          intro s' hs' hne hmem
          exact error_vocab_disjoint _ (by decide) s' hs' (Ne.symm hne) _
            (choose3_mem _ _ (by decide)) hmem))

/-- C10: `generate_logs` never emits an error log for `user-service`: every
emitted user-service document has level info or warn, carries no error code,
and its message comes from the user-service normal-operation table (with the
trace-id substituted); the rollback-phase error probability for user-service
is `0.02`, yet an error draw for user-service yields no document (the
`continue` at generate.py line 246), so the emitted count that minute can be
smaller than the drawn count. -/
theorem user_no_error_logs :
    (∀ (t : ℤ) (d : LogDraw) (log : LogDoc), mkLog "user-service" t d = some log →
        (log.level = "info" ∨ log.level = "warn") ∧ log.errorCode = none ∧
          ∃ e ∈ NORMAL_LOG_MESSAGES "user-service",
            log.message = strReplace e.2.1 "{trace_id}" d.traceId) ∧
      (logParams "user-service" 80).2 = 1/50 ∧
      (∀ (t : ℤ) (d : LogDraw), d.errDraw < (logParams "user-service" t).2 →
        mkLog "user-service" t d = none) ∧
      (∀ (t : ℤ) (ds : List LogDraw),
        (logsFor "user-service" t ds).length ≤ ds.length) := by
  have htab : ∀ x ∈ NORMAL_LOG_MESSAGES "user-service",
      x.1 = "info" ∧ x.2.2 = none := by decide
  refine ⟨?_, ?_, ?_, ?_⟩
  · intro t d log hmk
    by_cases herr : d.errDraw < (logParams "user-service" t).2
    · simp only [mkLog, String.reduceBEq, Bool.or_self, Bool.false_eq_true,
        if_false] at hmk
      rw [if_pos herr] at hmk
      exact absurd hmk (by simp)
    · simp only [mkLog] at hmk
      rw [if_neg herr] at hmk
      rw [Option.some.injEq] at hmk
      subst hmk
      have hm := choose3_mem (NORMAL_LOG_MESSAGES "user-service") d.msgIdx (by decide)
      obtain ⟨hl, hc⟩ := htab _ hm
      exact ⟨Or.inl hl, hc, ⟨_, hm, rfl⟩⟩
  · unfold logParams INCIDENT_START_MIN INCIDENT_PEAK_MIN ROLLBACK_MIN RECOVERY_MIN RESOLVED_MIN
    rw [if_neg (by omega), if_neg (by omega), if_neg (by omega), if_pos (by omega),
      if_neg (by decide), if_neg (by decide)]
  · intro t d herr
    simp only [mkLog, String.reduceBEq, Bool.or_self, Bool.false_eq_true, if_false]
    rw [if_pos herr]
  · intro t ds
    exact List.length_filterMap_le _ _

/-- A concrete draw record hitting the error branch at peak for
`order-service` (error draw 0 against error ratio 0.8). -/
def orderDraw0 : LogDraw := ⟨0, "t1", 0, 0, 0, 0, 7, 7, 7⟩

/-- The document `mkLog "order-service" 66 orderDraw0` emits. -/
def orderLog0 : LogDoc :=
  { offset := ((66 : ℤ) : ℚ) + 0 / 60
    level := "error"
    message := "Connection pool exhausted: max 5 connections reached, 23 waiting"
    service := "order-service"
    traceId := "trace-t1"
    host := "order-svc-01"
    requestPath := "/api/orders"
    responseTime := 7
    errorCode := some "DB_POOL_EXHAUSTED" }

/-- C7 witness: the theorem instantiated at `order-service`, peak minute 66,
the concrete draw `orderDraw0` and its emitted document. -/
theorem error_vocab_own_service_witness :
    orderLog0.errorCode.isSome = true ∧
      (orderLog0.level, orderLog0.message, orderLog0.errorCode) ∈
        errorTableOf "order-service" ∧
      ∀ s', s' ∈ SERVICES → s' ≠ "order-service" →
        orderLog0.message ∉ (errorTableOf s').map (fun e => e.2.1) :=
  error_vocab_own_service "order-service" 66 orderDraw0 orderLog0 (by decide)
    (by
      rw [(by
        unfold logParams INCIDENT_START_MIN INCIDENT_PEAK_MIN ROLLBACK_MIN RESOLVED_MIN
        rw [if_neg (by omega), if_neg (by omega), if_pos (by omega), if_pos (by decide)]
        : (logParams "order-service" 66).2 = 4/5)]
      norm_num [orderDraw0])
    (by
      have hr : (logParams "order-service" (66 : ℤ)).2 = 4/5 := by
        unfold logParams INCIDENT_START_MIN INCIDENT_PEAK_MIN ROLLBACK_MIN RESOLVED_MIN
        rw [if_neg (by omega), if_neg (by omega), if_pos (by omega), if_pos (by decide)]
      unfold mkLog
      rw [hr, if_pos (by norm_num [orderDraw0] : orderDraw0.errDraw < (4/5 : ℚ))]
      rw [if_pos (by decide)]
      rw [Option.some.injEq, LogDoc.mk.injEq]
      refine ⟨by norm_num [orderDraw0, orderLog0], by decide, by decide, by decide,
        by decide, by decide, by decide, by decide, by decide⟩)

/-- A concrete draw record hitting the normal branch for `user-service` at
minute 0 (error ratio 0 there). -/
def userDraw0 : LogDraw := ⟨0, "t1", 0, 0, 0, 0, 7, 7, 7⟩

/-- The document `mkLog "user-service" 0 userDraw0` emits. -/
def userLog0 : LogDoc :=
  { offset := ((0 : ℤ) : ℚ) + 0 / 60
    level := "info"
    message := "User authentication successful"
    service := "user-service"
    traceId := "trace-t1"
    host := "user-svc-01"
    requestPath := "/api/users"
    responseTime := 7
    errorCode := none }

/-- C10 witness: the first component of the theorem instantiated at minute 0,
the concrete draw `userDraw0` and its emitted document. -/
theorem user_no_error_logs_witness :
    (userLog0.level = "info" ∨ userLog0.level = "warn") ∧ userLog0.errorCode = none ∧
      ∃ e ∈ NORMAL_LOG_MESSAGES "user-service",
        userLog0.message = strReplace e.2.1 "{trace_id}" userDraw0.traceId :=
  user_no_error_logs.1 0 userDraw0 userLog0 (by
    have hr : (logParams "user-service" (0 : ℤ)).2 = 0 := by
      unfold logParams INCIDENT_START_MIN RESOLVED_MIN
      rw [if_pos (by omega)]
    unfold mkLog
    rw [hr, if_neg (by norm_num [userDraw0] : ¬(userDraw0.errDraw < (0 : ℚ)))]
    rw [Option.some.injEq, LogDoc.mk.injEq]
    refine ⟨by norm_num [userDraw0, userLog0], by decide, by decide, by decide,
      by decide, by decide, by decide, by decide, by decide⟩)
